import Mathlib

/-!
Verification of the batch ETL loader (`etl.py`) against its specification.

The development is a shallow embedding of the source:
* Python / pandas cell values are modelled by `Value` (null, string, integer)
  with Python truthiness;
* a parsed JSON-lines file is a `List` of records (pandas `read_json` row order);
* store writes performed through the cursor are reified as a `Write` list;
* pandas `Timestamp` decomposition (`dt.hour`, `dt.day`, `isocalendar().week`,
  `dt.month`, `dt.year`, `dt.weekday`) of a non-negative epoch-millisecond
  value is the proleptic-Gregorian (civil) calendar decomposition in UTC,
  embedded by the standard days-from-civil / civil-from-days algorithms;
* the batch runner `process_data` is modelled over the per-file outcomes of
  the transformer (`Except PyErr (List Write)`), producing the trace of
  commits, progress prints, error reports and rollbacks, together with the
  uncaught exception (if any) that aborts the loop.
-/

/-- A Python / pandas cell value: `vNull` models `None` / missing (the thing
`dropna` removes), `vStr` a string, `vInt` an integer. -/
inductive Value where
  | vNull
  | vStr (s : String)
  | vInt (n : Int)
deriving DecidableEq, Repr

/-- Python truthiness as used by `if row.userId:` and
`if songplay_userId and songid and artistid:`: empty string and zero are
falsy, missing is falsy, everything else truthy. -/
def Value.truthy : Value → Bool
  | .vNull => false
  | .vStr s => s != ""
  | .vInt n => n != 0

/-- One record of a song file, i.e. one row of the DataFrame produced by
`pd.read_json(filepath, lines=True)` in `process_song_file`. -/
structure SongRecord where
  song_id : Value
  title : Value
  artist_id : Value
  year : Value
  duration : Value
  artist_name : Value
  artist_location : Value
  artist_latitude : Value
  artist_longitude : Value
deriving DecidableEq, Repr

/-- One record of a log file, i.e. one row of the DataFrame in
`process_log_file`.  `ts` is the epoch-millisecond timestamp (non-negative in
the log data), used arithmetically by `pd.to_datetime(..., unit='ms')`. -/
structure LogRecord where
  page : Value
  ts : Nat
  userId : Value
  firstName : Value
  lastName : Value
  gender : Value
  level : Value
  song : Value
  length : Value
  sessionId : Value
  location : Value
  userAgent : Value
deriving DecidableEq, Repr

/-- A row of the `time` table as built in `process_log_file`
(columns `timestamp, hour, day, weekofyear, month, year, weekday`). -/
structure TimeRow where
  timestamp : Nat
  hour : Nat
  day : Nat
  week : Nat
  month : Nat
  year : Nat
  weekday : Nat
deriving DecidableEq, Repr

/-- A row of the `users` table (`userId, firstName, lastName, gender, level`). -/
structure UserRow where
  userId : Value
  firstName : Value
  lastName : Value
  gender : Value
  level : Value
deriving DecidableEq, Repr

/-- A row of the `songplays` table, in the tuple order of `songplay_data`. -/
structure SongplayRow where
  sessionId : Value
  start_time : Nat
  userId : Value
  level : Value
  songId : Value
  artistId : Value
  location : Value
  userAgent : Value
deriving DecidableEq, Repr

/-- A store write issued through `cur.execute(<insert statement>, data)`. -/
inductive Write where
  | songInsert (vals : List Value)
  | artistInsert (vals : List Value)
  | timeInsert (row : TimeRow)
  | userInsert (row : UserRow)
  | songplayInsert (row : SongplayRow)
deriving DecidableEq, Repr

def Write.isTimeInsert : Write → Bool
  | .timeInsert _ => true
  | _ => false

def Write.isUserInsert : Write → Bool
  | .userInsert _ => true
  | _ => false

def Write.isSongplayInsert : Write → Bool
  | .songplayInsert _ => true
  | _ => false

/-- The user rows carried by a write list (projection of `userInsert`s). -/
def userRowsOf (ws : List Write) : List UserRow :=
  ws.filterMap fun w =>
    match w with
    | .userInsert r => some r
    | _ => none

/-- Python exceptions relevant to the ETL core.  `storeError` stands for
`psycopg2.Error` (the only class caught by the batch runner); the others are
uncaught at the runner's boundary.  `keyError` is a failed DataFrame column
selection (`KeyError`), `indexError` an out-of-range access (`IndexError`),
`parseError` a `pd.read_json` failure on malformed input. -/
inductive PyErr where
  | storeError (msg : String)
  | keyError
  | indexError
  | parseError
  | unboundLocalError
deriving DecidableEq, Repr

/-- Whether an exception is a `psycopg2.Error`, i.e. matched by the
`except psycopg2.Error` clause of `process_data`. -/
def PyErr.isStoreError : PyErr → Bool
  | .storeError _ => true
  | _ => false

/-- `process_song_file` (etl.py lines 8-25): on an empty record sequence the
parsed DataFrame has no columns at all, so the column selection
`df[['song_id', 'title', 'artist_id', 'year', 'duration']]` at line 20 raises
`KeyError` — before `.values[0]` is ever evaluated and before any
`cur.execute`; otherwise the first record is projected onto the song fields
and then the artist fields, and the two inserts are issued in that order with
values copied verbatim. -/
def process_song_file : List SongRecord → Except PyErr (List Write)
  | [] => .error .keyError
  | r :: _ =>
    .ok [.songInsert [r.song_id, r.title, r.artist_id, r.year, r.duration],
         .artistInsert [r.artist_id, r.artist_name, r.artist_location,
                        r.artist_latitude, r.artist_longitude]]

/-! ## Calendar decomposition (pandas `to_datetime` / `dt` accessors)

`pd.to_datetime(ts, origin='unix', unit='ms')` interprets `ts` as milliseconds
since 1970-01-01T00:00:00 UTC on the proleptic Gregorian calendar.  For a day
number `z` (days since the epoch) the civil date is computed by the standard
era-based algorithm; `daysFromCivil` is its standard inverse. -/

/-- Day-of-era (0-based) of epoch day `z` within its 400-year era. -/
def doeOf (z : Nat) : Nat := (z + 719468) % 146097

/-- Era index of epoch day `z` (eras of 146097 days = 400 Gregorian years). -/
def eraOf (z : Nat) : Nat := (z + 719468) / 146097

/-- Year-of-era (0-based, March-based years) of epoch day `z`. -/
def yoeOf (z : Nat) : Nat :=
  (doeOf z - doeOf z / 1460 + doeOf z / 36524 - doeOf z / 146096) / 365

/-- Day-of-year (0-based, year starting March 1) of epoch day `z`. -/
def doyOf (z : Nat) : Nat :=
  doeOf z - (365 * yoeOf z + yoeOf z / 4 - yoeOf z / 100)

/-- Month index counted from March (0 = March .. 11 = February). -/
def mpOf (z : Nat) : Nat := (5 * doyOf z + 2) / 153

/-- Day of month (1-31) of epoch day `z` (pandas `dt.day`). -/
def civilDay (z : Nat) : Nat := doyOf z - (153 * mpOf z + 2) / 5 + 1

/-- Calendar month (1-12) of epoch day `z` (pandas `dt.month`). -/
def civilMonth (z : Nat) : Nat := if mpOf z < 10 then mpOf z + 3 else mpOf z - 9

/-- Calendar year of epoch day `z` (pandas `dt.year`). -/
def civilYear (z : Nat) : Nat :=
  if civilMonth z ≤ 2 then yoeOf z + eraOf z * 400 + 1 else yoeOf z + eraOf z * 400

/-- Number of days from the epoch (1970-01-01) to the civil date `y-m-d`,
the standard inverse of the civil decomposition.  Used as the independent,
spec-side characterisation of a correct decomposition. -/
def daysFromCivil (y m d : Nat) : Nat :=
  let y' := if m ≤ 2 then y - 1 else y
  let era := y' / 400
  let yoe := y' % 400
  let mp := if 2 < m then m - 3 else m + 9
  let doy := (153 * mp + 2) / 5 + d - 1
  let doe := yoe * 365 + yoe / 4 - yoe / 100 + doy
  era * 146097 + doe - 719468

/-- Length of month `m` of Gregorian year `y`. -/
def daysInMonth (y m : Nat) : Nat :=
  if m = 2 then (if (y % 4 = 0 ∧ y % 100 ≠ 0) ∨ y % 400 = 0 then 29 else 28)
  else if m = 4 ∨ m = 6 ∨ m = 9 ∨ m = 11 then 30
  else 31

/-- Number of ISO weeks (52 or 53) of Gregorian year `y` (standard rule:
53 iff 1 January or 31 December of `y` falls on a Thursday). -/
def isoWeeksInYear (y : Nat) : Nat :=
  if (y + y / 4 - y / 100 + y / 400) % 7 = 4 ∨
     (y - 1 + (y - 1) / 4 - (y - 1) / 100 + (y - 1) / 400) % 7 = 3
  then 53 else 52

/-- ISO-8601 week number of the civil date `y-m-d`
(pandas `dt.isocalendar().week`). -/
def isoWeek (y m d : Nat) : Nat :=
  let dayN := daysFromCivil y m d
  let doy1 := dayN - daysFromCivil y 1 1 + 1
  let wd := (dayN + 3) % 7 + 1
  let w := (10 + doy1 - wd) / 7
  if w = 0 then isoWeeksInYear (y - 1)
  else if isoWeeksInYear y < w then 1
  else w

/-- The time-table row derived from epoch-millisecond timestamp `ts`:
`(timestamp, hour, day, weekofyear, month, year, weekday)` exactly as the
pandas accessors produce them (weekday: Monday = 0; the epoch day 1970-01-01
was a Thursday, index 3). -/
def mkTimeRow (ts : Nat) : TimeRow :=
  let days := ts / 86400000
  { timestamp := ts
    hour := ts / 3600000 % 24
    day := civilDay days
    week := isoWeek (civilYear days) (civilMonth days) (civilDay days)
    month := civilMonth days
    year := civilYear days
    weekday := (days + 3) % 7 }

/-- The time-dimension writes of `process_log_file` (etl.py lines 39-61):
filter to `page == 'NextSong'`, decompose each timestamp, one insert per row
in original order. -/
def timeWrites (df : List LogRecord) : List Write :=
  (df.filter fun r => r.page == Value.vStr "NextSong").map
    fun r => Write.timeInsert (mkTimeRow r.ts)

/-- Projection of a log record onto the `users` columns
(`df[['userId', 'firstName', 'lastName', 'gender', 'level']]`). -/
def logUserRow (r : LogRecord) : UserRow :=
  { userId := r.userId, firstName := r.firstName, lastName := r.lastName,
    gender := r.gender, level := r.level }

/-- Helper for `drop_duplicates`: keep a row iff its `userId` has not been
seen before (pandas keeps the first occurrence, in order). -/
def dropDuplicatesAux (seen : List Value) : List UserRow → List UserRow
  | [] => []
  | r :: rest =>
    if r.userId ∈ seen then dropDuplicatesAux seen rest
    else r :: dropDuplicatesAux (r.userId :: seen) rest

/-- `user_df.drop_duplicates(subset='userId')`: first occurrence of each
`userId` wins, original order preserved. -/
def drop_duplicates (rows : List UserRow) : List UserRow :=
  dropDuplicatesAux [] rows

/-- Whether a user row has a missing value in any column
(what `dropna()` drops). -/
def UserRow.hasNull (r : UserRow) : Bool :=
  r.userId == Value.vNull || r.firstName == Value.vNull ||
  r.lastName == Value.vNull || r.gender == Value.vNull || r.level == Value.vNull

/-- `user_df.dropna()`: remove every row containing a missing value. -/
def dropna (rows : List UserRow) : List UserRow :=
  rows.filter fun r => !r.hasNull

/-- The user-dimension writes of `process_log_file` (etl.py lines 63-70):
project, deduplicate by `userId` (first kept), drop null-bearing rows, one
insert per remaining row in order. -/
def userWrites (df : List LogRecord) : List Write :=
  (dropna (drop_duplicates (df.map logUserRow))).map fun r => Write.userInsert r

/-- The store's `song_select` lookup: from `(row.song, row.length)` to the
`(song_id, artist_id)` pair of the first matching row, if any (`fetchone`). -/
def SongLookup : Type := Value → Value → Option (Value × Value)

/-- The songplay handling of one record (etl.py lines 73-102): look up
`(songid, artistid)` (both `None` when the lookup misses), nullify a falsy
`userId`, and insert the songplay row only when `songplay_userId and songid
and artistid` is truthy; otherwise do nothing. -/
def songplayWriteFor (lookup : SongLookup) (r : LogRecord) : List Write :=
  let results := lookup r.song r.length
  let ids := match results with
    | some (s, a) => (s, a)
    | none => (Value.vNull, Value.vNull)
  let songplay_userId := if r.userId.truthy then r.userId else Value.vNull
  if songplay_userId.truthy && ids.1.truthy && ids.2.truthy then
    [Write.songplayInsert
      { sessionId := r.sessionId, start_time := r.ts, userId := songplay_userId,
        level := r.level, songId := ids.1, artistId := ids.2,
        location := r.location, userAgent := r.userAgent }]
  else []

/-- The songplay writes of a whole log file, record by record in file order. -/
def songplayWrites (lookup : SongLookup) (df : List LogRecord) : List Write :=
  df.flatMap (songplayWriteFor lookup)

/-- `process_log_file` (etl.py lines 28-102): time writes, then user writes,
then songplay writes, in the order the three loops run. -/
def process_log_file (lookup : SongLookup) (df : List LogRecord) : List Write :=
  timeWrites df ++ userWrites df ++ songplayWrites lookup df

/-! ## Batch runner -/

/-- Observable events of one `process_data` run: the initial file-count
print, and per file either `commit` + `progress i n` (success) or
`errorReport` + `rollback` (caught `psycopg2.Error`). -/
inductive Event where
  | filesFound (n : Nat)
  | commit
  | progress (i n : Nat)
  | errorReport (file : String)
  | rollback
deriving DecidableEq, Repr

def Event.isProgress : Event → Bool
  | .progress _ _ => true
  | _ => false

/-- The `for i, datafile in enumerate(all_files, start=1)` loop of
`process_data` (etl.py lines 121-131), over the per-file results of
`func(cur, datafile)`.  Success: commit, then the progress print.  A
`psycopg2.Error`: error report, rollback, continue.  Any other exception is
uncaught: the loop (and the whole run) aborts there, leaving the remaining
files unprocessed. -/
def runFiles (n : Nat) : Nat → List (String × Except PyErr (List Write)) →
    List Event × Option PyErr
  | _, [] => ([], none)
  | i, (f, res) :: rest =>
    match res with
    | .ok _ =>
      let next := runFiles n (i + 1) rest
      (Event.commit :: Event.progress i n :: next.1, next.2)
    | .error e =>
      if e.isStoreError then
        let next := runFiles n (i + 1) rest
        (Event.errorReport f :: Event.rollback :: next.1, next.2)
      else ([], some e)

/-- `process_data` (etl.py lines 104-131) over the discovered files paired
with their transformer outcomes: prints the file count, then runs the loop. -/
def process_data (results : List (String × Except PyErr (List Write))) :
    List Event × Option PyErr :=
  let run := runFiles results.length 1 results
  (Event.filesFound results.length :: run.1, run.2)

/-! ## File walker -/

mutual
/-- A directory tree: an ordered list of entries (plain files and named
subdirectories), in the listing order `os.walk` / `glob` traverse. -/
inductive FsTree where
  | node (entries : EntryList)
inductive EntryList where
  | nil
  | file (name : String) (rest : EntryList)
  | subdir (name : String) (t : FsTree) (rest : EntryList)
end

/-- Whether `glob.glob(os.path.join(root, '*.json'))` matches an entry name:
ends in `.json` and (glob semantics) is not hidden. -/
def matchesJson (name : String) : Bool :=
  ".json".toList.isSuffixOf name.toList && !(name.toList.head? == some '.')

/-- The matches of `glob.glob(os.path.join(root, '*.json'))` in one
directory, in listing order (glob matches any entry whose name fits the
pattern). -/
def globJson (root : String) : EntryList → List String
  | .nil => []
  | .file name rest =>
    (if matchesJson name then [root ++ "/" ++ name] else []) ++ globJson root rest
  | .subdir name _ rest =>
    (if matchesJson name then [root ++ "/" ++ name] else []) ++ globJson root rest

mutual
/-- The file-collection loop of `process_data` (etl.py lines 110-115):
`os.walk` visits the root, then each subtree top-down in listing order, and
per visited directory the glob results are appended.  `root` is the absolute
path of the current directory (`os.path.abspath`). -/
def walkFiles (root : String) : FsTree → List String
  | .node entries => globJson root entries ++ walkSubdirs root entries
def walkSubdirs (root : String) : EntryList → List String
  | .nil => []
  | .file _ rest => walkSubdirs root rest
  | .subdir name t rest =>
    walkFiles (root ++ "/" ++ name) t ++ walkSubdirs root rest
end

mutual
/-- Whether `p` is the absolute path of a matching `.json` plain file
somewhere (at any depth) in the tree rooted at `root`. -/
def fileAtTree (root : String) : FsTree → String → Bool
  | .node entries, p => fileAtEntries root entries p
def fileAtEntries (root : String) : EntryList → String → Bool
  | .nil, _ => false
  | .file name rest, p =>
    (matchesJson name && p == root ++ "/" ++ name) || fileAtEntries root rest p
  | .subdir name t rest, p =>
    fileAtTree (root ++ "/" ++ name) t p || fileAtEntries root rest p
end

/-! ## main -/

/-- Observable events of `main` (etl.py lines 134-144). -/
inductive MainEv where
  | printConnError
  | runSongDir
  | runLogDir
  | closeConn
deriving DecidableEq, Repr

/-- `main` (modelled as `etlMain`; Lean reserves the name `main` for
executables): try to connect and take a cursor; on `psycopg2.Error` print the
error and fall through.  In that case `conn` and `cur` were never bound, so
evaluating the arguments of the first `process_data(cur, conn, ...)` call
raises `UnboundLocalError` and aborts the run before any processing: neither
directory run executes.  On success both runs execute and the connection is
closed. -/
def etlMain (connResult : Except String Unit) : List MainEv × Option PyErr :=
  match connResult with
  | .error _ => ([MainEv.printConnError], some PyErr.unboundLocalError)
  | .ok _ => ([MainEv.runSongDir, MainEv.runLogDir, MainEv.closeConn], none)

/-! ## Spec-side definitions

These follow the wording of the specification (not the source), for the
refinement comparisons. -/

/-- Spec-side: "each Time row's (hour, day, week_of_year, month, year,
weekday) is the correct calendar decomposition (with ISO week number and
weekday index) of that record's epoch-millisecond timestamp": the date fields
form a valid Gregorian date whose day number (via the independent
`daysFromCivil`) is the timestamp's day count, the hour is the hour of day,
the weekday is the day count offset by Thursday, and the week is the ISO week
of that date. -/
def isCorrectDecomposition (ts : Nat) (row : TimeRow) : Prop :=
  row.timestamp = ts ∧
  row.hour = ts / 3600000 % 24 ∧
  row.weekday = (ts / 86400000 + 3) % 7 ∧
  1 ≤ row.month ∧ row.month ≤ 12 ∧
  1 ≤ row.day ∧ row.day ≤ daysInMonth row.year row.month ∧
  daysFromCivil row.year row.month row.day = ts / 86400000 ∧
  row.week = isoWeek row.year row.month row.day

/-- Spec-side emission condition for a Songplay row: the record's `userId` is
non-falsy and the lookup returned a pair whose two components are both
non-falsy. -/
def specSongplayCond (lookup : SongLookup) (r : LogRecord) : Bool :=
  r.userId.truthy &&
    (match lookup r.song r.length with
     | some (s, a) => s.truthy && a.truthy
     | none => false)

/-- Spec-side content of the Songplay row emitted for a record (under
`specSongplayCond` the lookup hit, so the `none` arm is never taken). -/
def specSongplayRow (lookup : SongLookup) (r : LogRecord) : SongplayRow :=
  match lookup r.song r.length with
  | some (s, a) =>
    { sessionId := r.sessionId, start_time := r.ts, userId := r.userId,
      level := r.level, songId := s, artistId := a,
      location := r.location, userAgent := r.userAgent }
  | none =>
    { sessionId := r.sessionId, start_time := r.ts, userId := r.userId,
      level := r.level, songId := Value.vNull, artistId := Value.vNull,
      location := r.location, userAgent := r.userAgent }

/-- Spec-side "first occurrences (in file order) of each user_id": keep the
head, then keep of the rest everything with a different user_id. -/
def keepFirstOccurrence : List UserRow → List UserRow
  | [] => []
  | r :: rest =>
    r :: (keepFirstOccurrence rest).filter fun r2 => r2.userId != r.userId

/-- Spec-side progress reporting of the batch loop: one `progress i n` report
per successful file; a file failing with a store error produces no report but
still advances the counter; a file failing with any other error ends the run. -/
def progressReports (n : Nat) : Nat → List (String × Except PyErr (List Write)) →
    List Event
  | _, [] => []
  | i, (_, .ok _) :: rest => Event.progress i n :: progressReports n (i + 1) rest
  | i, (_, .error e) :: rest =>
    if e.isStoreError then progressReports n (i + 1) rest else []

/-! ## Concrete sample data (for counterexamples and witnesses) -/

/-- A store in which the `song_select` lookup always hits, but returns an
empty-string `song_id` (possible when a song file carried an empty id). -/
def emptyIdLookup : SongLookup := fun _ _ => some (Value.vStr "", Value.vStr "A1")

/-- The log record of the spec's end-to-end scenario (§8), with an integral
`length`. -/
def sampleLogRecord : LogRecord :=
  { page := Value.vStr "NextSong", ts := 1541121934796, userId := Value.vStr "10",
    firstName := Value.vStr "A", lastName := Value.vStr "B",
    gender := Value.vStr "F", level := Value.vStr "free",
    song := Value.vStr "T", length := Value.vInt 180,
    sessionId := Value.vInt 5, location := Value.vStr "X",
    userAgent := Value.vStr "Y" }

/-- A log record for user 7 whose `gender` cell is missing. -/
def nullGenderRecord : LogRecord :=
  { sampleLogRecord with userId := Value.vStr "7", gender := Value.vNull }

/-- A later log record for user 7 with all user fields present. -/
def cleanUser7Record : LogRecord :=
  { sampleLogRecord with userId := Value.vStr "7" }

/-- A small directory tree: root contains `a.json` and subdirectory `sub`,
which contains `deep.json` inside a further subdirectory `inner`. -/
def sampleTree : FsTree :=
  FsTree.node (EntryList.file "a.json"
    (EntryList.subdir "sub"
      (FsTree.node (EntryList.subdir "inner"
        (FsTree.node (EntryList.file "deep.json" EntryList.nil))
        EntryList.nil))
      EntryList.nil))

/-! ## Calendar correctness -/

set_option maxHeartbeats 8000000 in
/-- The year-of-era formula is correct: the start-of-year day count is at most
`doe`, the day-of-year is at most 365, and the year-of-era is at most 399. -/
theorem yearOfEra_bounds (doe : Nat) (h : doe ≤ 146096) :
    365 * ((doe - doe / 1460 + doe / 36524 - doe / 146096) / 365) +
      ((doe - doe / 1460 + doe / 36524 - doe / 146096) / 365) / 4 -
      ((doe - doe / 1460 + doe / 36524 - doe / 146096) / 365) / 100 ≤ doe ∧
    doe - (365 * ((doe - doe / 1460 + doe / 36524 - doe / 146096) / 365) +
      ((doe - doe / 1460 + doe / 36524 - doe / 146096) / 365) / 4 -
      ((doe - doe / 1460 + doe / 36524 - doe / 146096) / 365) / 100) ≤ 365 ∧
    (doe - doe / 1460 + doe / 36524 - doe / 146096) / 365 ≤ 399 := by
  obtain ⟨g, hg⟩ : ∃ g, doe / 1460 = g := ⟨_, rfl⟩
  have hgb : g ≤ 100 := by omega
  have hgl : 1460 * g ≤ doe ∧ doe ≤ 1460 * g + 1459 := by omega
  rw [hg]
  interval_cases g <;> try omega
  all_goals (
    obtain ⟨e, he⟩ : ∃ e, doe / 36524 = e := ⟨_, rfl⟩
    have heb : 36524 * e ≤ doe ∧ doe < 36524 * (e + 1) := by omega
    have heh : e ≤ 4 := by omega
    rw [he]
    interval_cases e <;> omega)

set_option maxHeartbeats 2000000 in
/-- The civil decomposition of an epoch day number inverts `daysFromCivil`:
the produced `(year, month, day)` is mapped back to the same day number. -/
theorem daysFromCivil_decomposition (z : Nat) :
    daysFromCivil (civilYear z) (civilMonth z) (civilDay z) = z := by
  have hdoe : (z + 719468) % 146097 ≤ 146096 := by omega
  have H := yearOfEra_bounds ((z + 719468) % 146097) hdoe
  have hlink : 146097 * ((z + 719468) / 146097) + (z + 719468) % 146097 = z + 719468 :=
    Nat.div_add_mod _ _
  simp only [daysFromCivil, civilYear, civilMonth, civilDay, mpOf, doyOf, yoeOf, eraOf, doeOf]
  generalize he : (z + 719468) / 146097 = era at hlink ⊢
  generalize hd : (z + 719468) % 146097 = doe at hdoe H hlink ⊢
  generalize hy : (doe - doe / 1460 + doe / 36524 - doe / 146096) / 365 = y at H ⊢
  obtain ⟨doy, hdoy⟩ : ∃ d0, doe - (365 * y + y / 4 - y / 100) = d0 := ⟨_, rfl⟩
  rw [hdoy] at H ⊢
  have hdoyb : doy ≤ 365 ∧ 365 * y + y / 4 - y / 100 + doy = doe ∧ y ≤ 399 := by omega
  obtain ⟨mp, hmp⟩ : ∃ m0, (5 * doy + 2) / 153 = m0 := ⟨_, rfl⟩
  rw [hmp]
  have hmpb : 153 * mp ≤ 5 * doy + 2 ∧ 5 * doy + 2 < 153 * mp + 153 ∧ mp ≤ 11 := by omega
  obtain ⟨q5, hq5⟩ : ∃ q0, (153 * mp + 2) / 5 = q0 := ⟨_, rfl⟩
  rw [hq5]
  have hq5b : 5 * q5 ≤ 153 * mp + 2 ∧ 153 * mp + 2 < 5 * q5 + 5 := by omega
  clear hdoe hy hdoy hmp hq5
  repeat' split
  all_goals try simp only [Nat.add_sub_cancel]
  all_goals (
    have h2 : (y + era * 400) % 400 = y := by omega
    have h1 : (y + era * 400) / 400 = era := by omega
    try rw [h1]
    try rw [h2]
    try (have h6 : mp - 9 + 9 = mp := by omega
         rw [h6])
    omega)

set_option maxRecDepth 10000 in
set_option maxHeartbeats 1000000 in
/-- Finite check behind the leap-year refinement: for each year-of-era whose
366th day (0-based day 365) still lies in the era and maps back to the same
year-of-era, the following calendar year index satisfies the Gregorian leap
pattern. -/
theorem leapYearCheck : ∀ y : Nat, y < 400 →
    365 * y + y / 4 - y / 100 + 365 ≤ 146096 →
    ((365 * y + y / 4 - y / 100 + 365) - (365 * y + y / 4 - y / 100 + 365) / 1460 +
      (365 * y + y / 4 - y / 100 + 365) / 36524 -
      (365 * y + y / 4 - y / 100 + 365) / 146096) / 365 = y →
    (y + 1) % 4 = 0 ∧ ((y + 1) % 100 ≠ 0 ∨ y + 1 = 400) := by decide

/-- If the (March-based) day-of-year of an epoch day is 365, its year-of-era
heads a leap February: the next calendar year index fits the leap pattern. -/
theorem leapYear_of_doy365 (z : Nat) (h365 : doyOf z = 365) :
    (yoeOf z + 1) % 4 = 0 ∧ ((yoeOf z + 1) % 100 ≠ 0 ∨ yoeOf z + 1 = 400) := by
  have hdoe : (z + 719468) % 146097 ≤ 146096 := by omega
  have H := yearOfEra_bounds ((z + 719468) % 146097) hdoe
  simp only [doyOf, yoeOf, doeOf] at h365 ⊢
  generalize hd : (z + 719468) % 146097 = doe at hdoe H h365 ⊢
  generalize hy : (doe - doe / 1460 + doe / 36524 - doe / 146096) / 365 = y at H h365 ⊢
  have hy400 : y < 400 := by omega
  have hD : doe = 365 * y + y / 4 - y / 100 + 365 := by omega
  have hle : 365 * y + y / 4 - y / 100 + 365 ≤ 146096 := by omega
  rw [hD] at hy
  exact leapYearCheck y hy400 hle hy

set_option maxHeartbeats 2000000 in
/-- The civil decomposition of an epoch day number is a valid Gregorian date:
month in 1..12, day in 1..(length of that month of that year). -/
theorem civilDate_valid (z : Nat) :
    1 ≤ civilMonth z ∧ civilMonth z ≤ 12 ∧ 1 ≤ civilDay z ∧
      civilDay z ≤ daysInMonth (civilYear z) (civilMonth z) := by
  have hdoe : (z + 719468) % 146097 ≤ 146096 := by omega
  have H := yearOfEra_bounds ((z + 719468) % 146097) hdoe
  have L : doyOf z = 365 → (yoeOf z + 1) % 4 = 0 ∧
      ((yoeOf z + 1) % 100 ≠ 0 ∨ yoeOf z + 1 = 400) := leapYear_of_doy365 z
  simp only [doyOf, yoeOf, doeOf] at L
  simp only [daysInMonth, civilDay, civilMonth, civilYear, mpOf, doyOf, yoeOf, eraOf, doeOf]
  generalize he : (z + 719468) / 146097 = era
  generalize hd : (z + 719468) % 146097 = doe at hdoe H L ⊢
  generalize hy : (doe - doe / 1460 + doe / 36524 - doe / 146096) / 365 = y at H L ⊢
  obtain ⟨doy, hdoy⟩ : ∃ d0, doe - (365 * y + y / 4 - y / 100) = d0 := ⟨_, rfl⟩
  rw [hdoy] at H L ⊢
  have hdoyb : doy ≤ 365 ∧ 365 * y + y / 4 - y / 100 + doy = doe ∧ y ≤ 399 := by omega
  obtain ⟨mp, hmp⟩ : ∃ m0, (5 * doy + 2) / 153 = m0 := ⟨_, rfl⟩
  rw [hmp]
  have hmpb : 153 * mp ≤ 5 * doy + 2 ∧ 5 * doy + 2 < 153 * mp + 153 ∧ mp ≤ 11 := by omega
  obtain ⟨q5, hq5⟩ : ∃ q0, (153 * mp + 2) / 5 = q0 := ⟨_, rfl⟩
  rw [hq5]
  have hq5b : 5 * q5 ≤ 153 * mp + 2 ∧ 153 * mp + 2 < 5 * q5 + 5 := by omega
  clear hdoe hy hdoy hmp hq5
  by_cases h365 : doy = 365
  · have Lp := L h365
    repeat' split
    all_goals omega
  · clear L
    repeat' split
    all_goals omega

/-- The decomposition performed by `mkTimeRow` is the correct calendar
decomposition in the spec's sense. -/
theorem mkTimeRow_correct (ts : Nat) : isCorrectDecomposition ts (mkTimeRow ts) := by
  have hv := civilDate_valid (ts / 86400000)
  have hr := daysFromCivil_decomposition (ts / 86400000)
  exact ⟨rfl, rfl, rfl, hv.1, hv.2.1, hv.2.2.1, hv.2.2.2, hr, rfl⟩

/-! ## List machinery -/

theorem filter_map_all_true {α β : Type} (f : α → β) (p : β → Bool)
    (h : ∀ x, p (f x) = true) (l : List α) : (l.map f).filter p = l.map f := by
  induction l with
  | nil => rfl
  | cons x xs ih => simp [h, ih]

theorem filter_map_all_false {α β : Type} (f : α → β) (p : β → Bool)
    (h : ∀ x, p (f x) = false) (l : List α) : (l.map f).filter p = [] := by
  induction l with
  | nil => rfl
  | cons x xs ih => simp [h, ih]

theorem filterMap_map_all_none {α β γ : Type} (f : α → β) (g : β → Option γ)
    (h : ∀ x, g (f x) = none) (l : List α) : (l.map f).filterMap g = [] := by
  induction l with
  | nil => rfl
  | cons x xs ih => simp [h, ih]

theorem userRowsOf_map_userInsert (l : List UserRow) :
    userRowsOf (l.map Write.userInsert) = l := by
  induction l with
  | nil => rfl
  | cons x xs ih => simp [userRowsOf] at ih ⊢; exact ih

/-! ## Songplay characterization -/

theorem songplayWriteFor_eq (lookup : SongLookup) (r : LogRecord) :
    songplayWriteFor lookup r =
      if specSongplayCond lookup r then
        [Write.songplayInsert (specSongplayRow lookup r)]
      else [] := by
  unfold songplayWriteFor specSongplayCond specSongplayRow
  rcases h : lookup r.song r.length with _ | ⟨s, a⟩
  · simp [h, Value.truthy]
  · rcases hu : r.userId.truthy with _ | _
    · simp [h, hu, Value.truthy]
    · simp [h, hu]

theorem songplayWrites_eq (lookup : SongLookup) (df : List LogRecord) :
    songplayWrites lookup df =
      (df.filter (specSongplayCond lookup)).map
        (fun r => Write.songplayInsert (specSongplayRow lookup r)) := by
  induction df with
  | nil => rfl
  | cons r rest ih =>
    rw [songplayWrites] at ih ⊢
    rw [List.flatMap_cons, ih, songplayWriteFor_eq]
    by_cases hc : specSongplayCond lookup r <;> simp [hc]

/-! ## Write-category projections of the three phases -/

theorem timeWrites_filter_time (df : List LogRecord) :
    (timeWrites df).filter Write.isTimeInsert = timeWrites df :=
  filter_map_all_true _ _ (fun _ => rfl) _

theorem timeWrites_filter_user (df : List LogRecord) :
    (timeWrites df).filter Write.isUserInsert = [] :=
  filter_map_all_false _ _ (fun _ => rfl) _

theorem timeWrites_filter_songplay (df : List LogRecord) :
    (timeWrites df).filter Write.isSongplayInsert = [] :=
  filter_map_all_false _ _ (fun _ => rfl) _

theorem userWrites_filter_time (df : List LogRecord) :
    (userWrites df).filter Write.isTimeInsert = [] :=
  filter_map_all_false _ _ (fun _ => rfl) _

theorem userWrites_filter_user (df : List LogRecord) :
    (userWrites df).filter Write.isUserInsert = userWrites df :=
  filter_map_all_true _ _ (fun _ => rfl) _

theorem userWrites_filter_songplay (df : List LogRecord) :
    (userWrites df).filter Write.isSongplayInsert = [] :=
  filter_map_all_false _ _ (fun _ => rfl) _

theorem songplayWrites_filter_time (lookup : SongLookup) (df : List LogRecord) :
    (songplayWrites lookup df).filter Write.isTimeInsert = [] := by
  rw [songplayWrites_eq]; exact filter_map_all_false _ _ (fun _ => rfl) _

theorem songplayWrites_filter_user (lookup : SongLookup) (df : List LogRecord) :
    (songplayWrites lookup df).filter Write.isUserInsert = [] := by
  rw [songplayWrites_eq]; exact filter_map_all_false _ _ (fun _ => rfl) _

theorem songplayWrites_filter_songplay (lookup : SongLookup) (df : List LogRecord) :
    (songplayWrites lookup df).filter Write.isSongplayInsert = songplayWrites lookup df := by
  rw [songplayWrites_eq]; exact filter_map_all_true _ _ (fun _ => rfl) _

theorem process_log_file_filter_time (lookup : SongLookup) (df : List LogRecord) :
    (process_log_file lookup df).filter Write.isTimeInsert = timeWrites df := by
  rw [process_log_file, List.filter_append, List.filter_append,
    timeWrites_filter_time, userWrites_filter_time, songplayWrites_filter_time]
  simp

theorem process_log_file_filter_songplay (lookup : SongLookup) (df : List LogRecord) :
    (process_log_file lookup df).filter Write.isSongplayInsert = songplayWrites lookup df := by
  rw [process_log_file, List.filter_append, List.filter_append,
    timeWrites_filter_songplay, userWrites_filter_songplay, songplayWrites_filter_songplay]
  simp

theorem userRowsOf_timeWrites (df : List LogRecord) :
    userRowsOf (timeWrites df) = [] :=
  filterMap_map_all_none _ _ (fun _ => rfl) _

theorem userRowsOf_songplayWrites (lookup : SongLookup) (df : List LogRecord) :
    userRowsOf (songplayWrites lookup df) = [] := by
  rw [songplayWrites_eq]; exact filterMap_map_all_none _ _ (fun _ => rfl) _

theorem userRowsOf_process_log_file (lookup : SongLookup) (df : List LogRecord) :
    userRowsOf (process_log_file lookup df) =
      dropna (drop_duplicates (df.map logUserRow)) := by
  rw [process_log_file, userRowsOf, List.filterMap_append, List.filterMap_append]
  rw [← userRowsOf, ← userRowsOf, ← userRowsOf,
    userRowsOf_timeWrites, userRowsOf_songplayWrites, userWrites,
    userRowsOf_map_userInsert]
  simp

/-! ## Deduplication lemmas -/

theorem dropDuplicatesAux_congr (rows : List UserRow) :
    ∀ s1 s2 : List Value, (∀ v, v ∈ s1 ↔ v ∈ s2) →
      dropDuplicatesAux s1 rows = dropDuplicatesAux s2 rows := by
  induction rows with
  | nil => intro _ _ _; rfl
  | cons r rest ih =>
    intro s1 s2 h
    rw [dropDuplicatesAux, dropDuplicatesAux]
    by_cases hm : r.userId ∈ s1
    · rw [if_pos hm, if_pos ((h _).1 hm)]
      exact ih _ _ h
    · rw [if_neg hm, if_neg (fun c => hm ((h _).2 c))]
      rw [ih (r.userId :: s1) (r.userId :: s2) (by intro v; simp [h v])]

theorem mem_dropDuplicatesAux (x : UserRow) (rows : List UserRow) :
    ∀ seen : List Value, x ∈ dropDuplicatesAux seen rows →
      x.userId ∉ seen ∧ rows.find? (fun y => y.userId == x.userId) = some x := by
  induction rows with
  | nil => intro seen hx; simp [dropDuplicatesAux] at hx
  | cons r rest ih =>
    intro seen hx
    rw [dropDuplicatesAux] at hx
    by_cases hm : r.userId ∈ seen
    · rw [if_pos hm] at hx
      obtain ⟨h1, h2⟩ := ih seen hx
      have hne : (r.userId == x.userId) = false := by
        by_cases hq : r.userId = x.userId
        · exact absurd (hq ▸ hm) h1
        · simp [hq]
      exact ⟨h1, by rw [List.find?_cons, hne]; exact h2⟩
    · rw [if_neg hm] at hx
      rcases List.mem_cons.mp hx with rfl | hx'
      · exact ⟨hm, by rw [List.find?_cons]; simp⟩
      · obtain ⟨h1, h2⟩ := ih _ hx'
        have hxs : x.userId ∉ seen := fun c => h1 (List.mem_cons_of_mem _ c)
        have hne : (r.userId == x.userId) = false := by
          by_cases hq : r.userId = x.userId
          · exact absurd (by rw [hq]; exact List.mem_cons_self _ _) h1
          · simp [hq]
        exact ⟨hxs, by rw [List.find?_cons, hne]; exact h2⟩

theorem pairwise_dropDuplicatesAux (rows : List UserRow) :
    ∀ seen : List Value, List.Pairwise (fun a b : UserRow => a.userId ≠ b.userId)
      (dropDuplicatesAux seen rows) := by
  induction rows with
  | nil => intro _; simp [dropDuplicatesAux]
  | cons r rest ih =>
    intro seen
    rw [dropDuplicatesAux]
    by_cases hm : r.userId ∈ seen
    · rw [if_pos hm]; exact ih _
    · rw [if_neg hm]
      refine List.Pairwise.cons ?_ (ih _)
      intro b hb c
      exact (mem_dropDuplicatesAux b rest _ hb).1 (c ▸ List.mem_cons_self _ _)

theorem dropDuplicatesAux_cons_filter (rows : List UserRow) :
    ∀ (u : Value) (seen : List Value),
      dropDuplicatesAux (u :: seen) rows =
        (dropDuplicatesAux seen rows).filter (fun r => r.userId != u) := by
  induction rows with
  | nil => intro _ _; rfl
  | cons r rest ih =>
    intro u seen
    rw [dropDuplicatesAux, dropDuplicatesAux]
    by_cases hm : r.userId ∈ seen
    · rw [if_pos (List.mem_cons_of_mem _ hm), if_pos hm]
      exact ih u seen
    · by_cases he : r.userId = u
      · rw [if_pos (by rw [he]; exact List.mem_cons_self _ _), if_neg hm]
        rw [List.filter_cons_of_neg (by simp [he])]
        rw [he]
        rw [List.filter_eq_self.mpr]
        intro b hb
        have := (mem_dropDuplicatesAux b rest _ hb).1
        simp only [bne_iff_ne, ne_eq, decide_eq_true_eq]
        exact fun c => this (c ▸ List.mem_cons_self _ _)
      · rw [if_neg (by simp [he, hm]), if_neg hm]
        rw [List.filter_cons_of_pos (by simp [he])]
        rw [← ih u (r.userId :: seen)]
        rw [dropDuplicatesAux_congr rest (r.userId :: u :: seen) (u :: r.userId :: seen)
          (by intro v; constructor <;> (intro hv; simp at hv ⊢; tauto))]

theorem drop_duplicates_eq_keepFirstOccurrence (rows : List UserRow) :
    drop_duplicates rows = keepFirstOccurrence rows := by
  induction rows with
  | nil => rfl
  | cons r rest ih =>
    rw [drop_duplicates, dropDuplicatesAux, if_neg (List.not_mem_nil _),
      dropDuplicatesAux_cons_filter, keepFirstOccurrence]
    rw [← drop_duplicates, ih]

/-! ## Progress report lemma -/

theorem runFiles_progress_filter (n : Nat) (rs : List (String × Except PyErr (List Write))) :
    ∀ i : Nat, (runFiles n i rs).1.filter Event.isProgress = progressReports n i rs := by
  induction rs with
  | nil => intro i; rfl
  | cons p rest ih =>
    intro i
    obtain ⟨f, res⟩ := p
    rcases res with e | w
    · by_cases hs : e.isStoreError
      · simp [runFiles, progressReports, hs, Event.isProgress, ih]
      · simp [runFiles, progressReports, hs]
    · simp [runFiles, progressReports, Event.isProgress, ih]

/-! ## Walker completeness -/

mutual
theorem fileAtTree_mem_walk (p : String) : ∀ (root : String) (t : FsTree),
    fileAtTree root t p = true → p ∈ walkFiles root t
  | root, .node entries, h => by
    rw [walkFiles]
    rw [fileAtTree] at h
    exact fileAtEntries_mem_walk p root entries h

theorem fileAtEntries_mem_walk (p : String) : ∀ (root : String) (es : EntryList),
    fileAtEntries root es p = true → p ∈ globJson root es ++ walkSubdirs root es
  | root, .nil, h => by rw [fileAtEntries] at h; exact absurd h (by simp)
  | root, .file name rest, h => by
    rw [fileAtEntries] at h
    rw [globJson, walkSubdirs]
    simp only [Bool.or_eq_true] at h
    rcases h with h1 | h2
    · simp only [Bool.and_eq_true] at h1
      obtain ⟨hm, hp⟩ := h1
      rw [hm]
      have : p = root ++ "/" ++ name := by exact eq_of_beq hp
      simp [this]
    · have := fileAtEntries_mem_walk p root rest h2
      rcases List.mem_append.mp this with h3 | h4
      · refine List.mem_append.mpr (Or.inl ?_)
        rcases matchesJson name <;> simp <;> tauto
      · exact List.mem_append.mpr (Or.inr h4)
  | root, .subdir name t rest, h => by
    rw [fileAtEntries] at h
    rw [globJson, walkSubdirs]
    simp only [Bool.or_eq_true] at h
    rcases h with h1 | h2
    · have := fileAtTree_mem_walk p (root ++ "/" ++ name) t h1
      refine List.mem_append.mpr (Or.inr (List.mem_append.mpr (Or.inl this)))
    · have := fileAtEntries_mem_walk p root rest h2
      rcases List.mem_append.mp this with h3 | h4
      · refine List.mem_append.mpr (Or.inl ?_)
        rcases matchesJson name <;> simp <;> tauto
      · exact List.mem_append.mpr (Or.inr (List.mem_append.mpr (Or.inr h4)))
end

/-! ## Claim theorems -/

/-- C1 (amended): a Songplay row is emitted (and written) for a record iff the
record's `userId` is non-falsy and the store lookup returned a pair whose
`song_id` and `artist_id` are both non-falsy; otherwise the record is skipped
silently.  Rows appear in file order with the looked-up ids. -/
theorem songplay_emit_characterization (lookup : SongLookup) (df : List LogRecord) :
    (process_log_file lookup df).filter Write.isSongplayInsert =
      (df.filter (specSongplayCond lookup)).map
        (fun r => Write.songplayInsert (specSongplayRow lookup r)) := by
  rw [process_log_file_filter_songplay, songplayWrites_eq]

/-- C1 counterexample: a record with a truthy `userId` whose store lookup
succeeds (returns a pair) but with an empty-string `song_id` produces no
Songplay write, refuting the claimed "if and only if the lookup returned a
song_id/artist_id pair". -/
theorem songplay_emit_claim_false :
    sampleLogRecord.userId.truthy = true ∧
    (emptyIdLookup sampleLogRecord.song sampleLogRecord.length).isSome = true ∧
    (process_log_file emptyIdLookup [sampleLogRecord]).filter Write.isSongplayInsert = [] := by
  refine ⟨rfl, rfl, ?_⟩
  rw [process_log_file_filter_songplay]
  rfl

/-- C2 (amended): a store-level error (`psycopg2.Error`) at a file is
contained at that file's boundary: the runner reports it, rolls the file's
transaction back, and the remaining files produce exactly the events they
would produce anyway; the abort state is that of the remaining files. -/
theorem store_error_isolation (n i : Nat) (f msg : String)
    (rest : List (String × Except PyErr (List Write))) :
    runFiles n i ((f, Except.error (PyErr.storeError msg)) :: rest) =
      (Event.errorReport f :: Event.rollback :: (runFiles n (i + 1) rest).1,
        (runFiles n (i + 1) rest).2) := rfl

/-- C2 counterexample: a non-store error at file 1 (here an `IndexError`,
standing for any exception that is not a `psycopg2.Error`, such as the
`KeyError` an empty song file raises or a parse error) aborts the whole
batch: file 2 is never processed and no rollback happens, refuting
"any error ... is contained". -/
theorem nonstore_error_aborts_batch :
    process_data [("f1", Except.error PyErr.indexError), ("f2", Except.ok [])] =
      ([Event.filesFound 2], some PyErr.indexError) := by
  decide

/-- C3: on a song file with at least one record, the transformer issues
exactly the song insert then the artist insert, with every field copied
verbatim from the first record. -/
theorem song_file_two_verbatim_writes (r : SongRecord) (rest : List SongRecord) :
    process_song_file (r :: rest) =
      Except.ok [Write.songInsert [r.song_id, r.title, r.artist_id, r.year, r.duration],
        Write.artistInsert [r.artist_id, r.artist_name, r.artist_location,
          r.artist_latitude, r.artist_longitude]] := rfl

/-- C4: the Time writes of a log file are exactly one row per `NextSong`
record, in original order, whose count matches the filtered record count, and
every emitted decomposition is the correct calendar decomposition of the
record's epoch-millisecond timestamp (valid Gregorian date inverting the day
count, hour of day, ISO week, Monday-based weekday). -/
theorem time_rows_count_order_decomposition (lookup : SongLookup) (df : List LogRecord) :
    (process_log_file lookup df).filter Write.isTimeInsert =
      (df.filter fun r => r.page == Value.vStr "NextSong").map
        (fun r => Write.timeInsert (mkTimeRow r.ts)) ∧
    ((process_log_file lookup df).filter Write.isTimeInsert).length =
      (df.filter fun r => r.page == Value.vStr "NextSong").length ∧
    ∀ ts : Nat, isCorrectDecomposition ts (mkTimeRow ts) := by
  refine ⟨process_log_file_filter_time lookup df, ?_, mkTimeRow_correct⟩
  rw [process_log_file_filter_time, timeWrites, List.length_map]

/-- C5: the User rows written for a log file are exactly the first
occurrences (in file order) of each `userId` that survive null-dropping, in
that order; no two written rows share a `userId` and no written row has a
null field. -/
theorem user_rows_unique_nonnull_firstocc (lookup : SongLookup) (df : List LogRecord) :
    userRowsOf (process_log_file lookup df) =
      (keepFirstOccurrence (df.map logUserRow)).filter (fun r => !r.hasNull) ∧
    List.Pairwise (fun a b : UserRow => a.userId ≠ b.userId)
      (userRowsOf (process_log_file lookup df)) ∧
    ∀ r ∈ userRowsOf (process_log_file lookup df), r.hasNull = false := by
  have h0 := userRowsOf_process_log_file lookup df
  refine ⟨?_, ?_, ?_⟩
  · rw [h0, dropna, drop_duplicates_eq_keepFirstOccurrence]
  · rw [h0, dropna, drop_duplicates]
    exact List.Pairwise.sublist (List.filter_sublist _) (pairwise_dropDuplicatesAux _ [])
  · intro r hr
    rw [h0, dropna] at hr
    have := (List.mem_filter.mp hr).2
    simpa using this

/-- C5 witness: on the spec's sample record the theorem applies; the single
emitted user row has no null field. -/
theorem user_rows_unique_nonnull_firstocc_witness :
    logUserRow sampleLogRecord ∈ userRowsOf (process_log_file emptyIdLookup [sampleLogRecord]) ∧
    (logUserRow sampleLogRecord).hasNull = false :=
  ⟨by decide,
    (user_rows_unique_nonnull_firstocc emptyIdLookup [sampleLogRecord]).2.2
      (logUserRow sampleLogRecord) (by decide)⟩

/-- C6 (amended): the batch loop reports progress only after files that
succeed; a store-level failure produces an error report instead of a progress
line, but the enumeration counter still advances past it, so later progress
lines count failed files as processed. -/
theorem progress_only_after_success (rs : List (String × Except PyErr (List Write))) :
    (process_data rs).1.filter Event.isProgress = progressReports rs.length 1 rs := by
  rw [process_data]
  simpa [Event.isProgress] using runFiles_progress_filter rs.length rs 1

/-- C6 counterexample: a run whose only file fails with a store error prints
the count, the error report and the rollback, but no progress line at all,
refuting "progress is reported after every file, regardless of ... failed". -/
theorem progress_after_failure_false :
    process_data [("f", Except.error (PyErr.storeError "boom"))] =
      ([Event.filesFound 1, Event.errorReport "f", Event.rollback], none) ∧
    (process_data [("f", Except.error (PyErr.storeError "boom"))]).1.filter
      Event.isProgress = [] := by
  constructor <;> decide

/-- C7: the File Walker returns (among its results) the absolute path of
every matching `.json` file at every depth of the tree, and two walks of the
same tree return the same list in the same order (the embedding is a pure
function of the tree, which models a stable directory listing). -/
theorem walker_complete_and_stable :
    (∀ (root p : String) (t : FsTree), fileAtTree root t p = true → p ∈ walkFiles root t) ∧
    ∀ (root : String) (t : FsTree), walkFiles root t = walkFiles root t :=
  ⟨fun root p t h => fileAtTree_mem_walk p root t h, fun _ _ => rfl⟩

/-- C7 witness: in the sample tree the depth-3 file `deep.json` is matched
and returned by the walker. -/
theorem walker_complete_and_stable_witness :
    fileAtTree "/data" sampleTree "/data/sub/inner/deep.json" = true ∧
    "/data/sub/inner/deep.json" ∈ walkFiles "/data" sampleTree :=
  ⟨by decide,
    walker_complete_and_stable.1 "/data" "/data/sub/inner/deep.json" sampleTree (by decide)⟩

/-- C8 (amended): on a startup connection failure the error is printed and
the handler itself does not exit, but the connection and cursor variables
were never bound, so evaluating the arguments of the first `process_data`
call raises `UnboundLocalError`: neither directory run executes.  On a
successful connection both runs execute and the connection is closed. -/
theorem connect_failure_reported_then_unbound (msg : String) :
    etlMain (Except.error msg) = ([MainEv.printConnError], some PyErr.unboundLocalError) ∧
    etlMain (Except.ok ()) = ([MainEv.runSongDir, MainEv.runLogDir, MainEv.closeConn], none) :=
  ⟨rfl, rfl⟩

/-- C8 counterexample: after a failed connection the run aborts with an
unbound-local error and neither directory-processing run is invoked, refuting
"execution is not aborted ... it proceeds to invoke the two
directory-processing runs". -/
theorem connect_failure_runs_not_invoked :
    etlMain (Except.error "connection refused") =
      ([MainEv.printConnError], some PyErr.unboundLocalError) ∧
    MainEv.runSongDir ∉ (etlMain (Except.error "connection refused")).1 ∧
    MainEv.runLogDir ∉ (etlMain (Except.error "connection refused")).1 := by
  refine ⟨rfl, ?_, ?_⟩ <;> decide

/-- C9 counterexample: on an empty song file the transformer's failure is a
`KeyError` from the column selection on a column-less DataFrame, not the
claimed out-of-range access (`IndexError`): the `.values[0]` indexing is
never reached. -/
theorem empty_song_file_not_index_error :
    process_song_file ([] : List SongRecord) = Except.error PyErr.keyError ∧
    process_song_file ([] : List SongRecord) ≠ Except.error PyErr.indexError :=
  ⟨rfl, by intro h; simp [process_song_file] at h⟩

/-- C9 (amended): an empty song file makes the Song Transformer fail — with a
`KeyError` at the column selection (the empty parsed DataFrame has no
columns), not an out-of-range access — before issuing any store write, and
since `KeyError` is not a store error the batch runner's handler does not
contain it: the loop aborts with no further events, whatever files remain. -/
theorem empty_song_file_key_error_uncontained :
    process_song_file ([] : List SongRecord) = Except.error PyErr.keyError ∧
    PyErr.keyError.isStoreError = false ∧
    ∀ (n i : Nat) (f : String) (rest : List (String × Except PyErr (List Write))),
      runFiles n i ((f, process_song_file []) :: rest) = ([], some PyErr.keyError) :=
  ⟨rfl, rfl, fun _ _ _ _ => rfl⟩

/-- C10: if the first record carrying a given `userId` has a null user field,
no User row with that `userId` is written for the file, even if later records
with that `userId` are clean: deduplication keeps the first occurrence before
nulls are dropped. -/
theorem first_null_user_suppresses_user_row (lookup : SongLookup) (df : List LogRecord)
    (uid : Value) (r : UserRow)
    (hfind : (df.map logUserRow).find? (fun y => y.userId == uid) = some r)
    (hnull : r.hasNull = true) :
    ∀ w ∈ userRowsOf (process_log_file lookup df), w.userId ≠ uid := by
  intro w hw c
  rw [userRowsOf_process_log_file, dropna] at hw
  obtain ⟨hw1, hw2⟩ := List.mem_filter.mp hw
  rw [drop_duplicates] at hw1
  obtain ⟨-, hfind'⟩ := mem_dropDuplicatesAux w _ _ hw1
  rw [c] at hfind'
  rw [hfind'] at hfind
  have hwr : w = r := Option.some.inj hfind
  rw [hwr, hnull] at hw2
  simp at hw2

/-- C10 witness: user 7's first record has a null gender, a later record is
clean; no user row for 7 is emitted. -/
theorem first_null_user_suppresses_user_row_witness :
    (([nullGenderRecord, cleanUser7Record] : List LogRecord).map logUserRow).find?
        (fun y => y.userId == Value.vStr "7") = some (logUserRow nullGenderRecord) ∧
    (logUserRow nullGenderRecord).hasNull = true ∧
    ∀ w ∈ userRowsOf (process_log_file emptyIdLookup [nullGenderRecord, cleanUser7Record]),
      w.userId ≠ Value.vStr "7" :=
  ⟨by decide, by decide,
    first_null_user_suppresses_user_row emptyIdLookup [nullGenderRecord, cleanUser7Record]
      (Value.vStr "7") (logUserRow nullGenderRecord) (by decide) (by decide)⟩
